import Mathlib

/-!
# Verification of the constraint-solving core of a 2D rigid-body physics engine

Shallow embedding of `src/Physics/Constraint.cpp`: the abstract `Constraint`
helpers (`GetVelocities`, `GetInvM`) and the two concrete constraint types
(`JointConstraint`, `PenetrationConstraint`) with their `PreSolve`/`Solve`
methods.  Machine floats are embedded as exact rationals (`ℚ`); the float
literals `0.01`, `0.1`, `0.2` of the source appear as the corresponding exact
rationals.  The external linear-algebra collaborator's `MatMN::SolveGaussSeidel`
is an opaque-to-this-core function; each `Solve` embedding therefore takes the
solver as an explicit function parameter, so every theorem quantifies over all
possible solver outputs.  The rigid-body collaborator (`Body`) is also external
to the source file; its fields and operations are modelled from the spec's
interface description (§6, §8).
-/

/-- Two-dimensional vector over exact rationals, embedding the engine's `Vec2`
(float pair). -/
structure Vec2 where
  x : ℚ
  y : ℚ
deriving DecidableEq, Repr

namespace Vec2

instance : Add Vec2 := ⟨fun v w => ⟨v.x + w.x, v.y + w.y⟩⟩

instance : Sub Vec2 := ⟨fun v w => ⟨v.x - w.x, v.y - w.y⟩⟩

instance : Neg Vec2 := ⟨fun v => ⟨-v.x, -v.y⟩⟩

instance : HMul Vec2 ℚ Vec2 := ⟨fun v s => ⟨v.x * s, v.y * s⟩⟩

/-- Dot product of the engine's `Vec2::Dot`. -/
def Dot (v w : Vec2) : ℚ := v.x * w.x + v.y * w.y

/-- 2D scalar cross product of the engine's `Vec2::Cross`. -/
def Cross (v w : Vec2) : ℚ := v.x * w.y - v.y * w.x

/-- Modelled from the spec: `Vec2::Normal` (defined outside `src/`) produces
"the normal's perpendicular (tangent) vector" (§4.3 step 3). -/
def Normal (v : Vec2) : Vec2 := ⟨v.y, -v.x⟩

@[simp] lemma add_x (v w : Vec2) : (v + w).x = v.x + w.x := rfl

@[simp] lemma add_y (v w : Vec2) : (v + w).y = v.y + w.y := rfl

@[simp] lemma sub_x (v w : Vec2) : (v - w).x = v.x - w.x := rfl

@[simp] lemma sub_y (v w : Vec2) : (v - w).y = v.y - w.y := rfl

@[simp] lemma neg_x (v : Vec2) : (-v).x = -v.x := rfl

@[simp] lemma neg_y (v : Vec2) : (-v).y = -v.y := rfl

@[simp] lemma smul_x (v : Vec2) (s : ℚ) : (v * s).x = v.x * s := rfl

@[simp] lemma smul_y (v : Vec2) (s : ℚ) : (v * s).y = v.y * s := rfl

end Vec2

/-- Modelled from the spec: the rigid-body collaborator (§6), exposing
`velocity`, `angularVelocity`, `invMass`, `invI`, `friction`, `restitution`,
`position`, and the local↔world point transforms.  The body's rotation is
represented by the cosine/sine pair `(rotC, rotS)` of its rotation angle. -/
structure Body where
  position : Vec2
  rotC : ℚ
  rotS : ℚ
  velocity : Vec2
  angularVelocity : ℚ
  invMass : ℚ
  invI : ℚ
  friction : ℚ
  restitution : ℚ
deriving DecidableEq, Repr

namespace Body

/-- Modelled from the spec: `Body::LocalSpaceToWorldSpace` (§6) — rotate a
local-frame point by the body's rotation and translate by its position. -/
def LocalSpaceToWorldSpace (bd : Body) (p : Vec2) : Vec2 :=
  ⟨bd.rotC * p.x - bd.rotS * p.y + bd.position.x,
   bd.rotS * p.x + bd.rotC * p.y + bd.position.y⟩

/-- Modelled from the spec: `Body::ApplyImpulseLinear` (§6, §8) — the velocity
changes by the impulse scaled by the inverse mass, so an infinite-mass body
(`invMass = 0`) has zero velocity change. -/
def ApplyImpulseLinear (bd : Body) (j : Vec2) : Body :=
  { bd with velocity := bd.velocity + j * bd.invMass }

/-- Modelled from the spec: `Body::ApplyImpulseAngular` (§6, §8) — the angular
velocity changes by the impulse scaled by the inverse rotational inertia. -/
def ApplyImpulseAngular (bd : Body) (j : ℚ) : Body :=
  { bd with angularVelocity := bd.angularVelocity + j * bd.invI }

@[simp] lemma applyLinear_position (bd : Body) (j : Vec2) :
    (bd.ApplyImpulseLinear j).position = bd.position := rfl

@[simp] lemma applyAngular_position (bd : Body) (j : ℚ) :
    (bd.ApplyImpulseAngular j).position = bd.position := rfl

@[simp] lemma applyLinear_rotC (bd : Body) (j : Vec2) :
    (bd.ApplyImpulseLinear j).rotC = bd.rotC := rfl

@[simp] lemma applyAngular_rotC (bd : Body) (j : ℚ) :
    (bd.ApplyImpulseAngular j).rotC = bd.rotC := rfl

@[simp] lemma applyLinear_rotS (bd : Body) (j : Vec2) :
    (bd.ApplyImpulseLinear j).rotS = bd.rotS := rfl

@[simp] lemma applyAngular_rotS (bd : Body) (j : ℚ) :
    (bd.ApplyImpulseAngular j).rotS = bd.rotS := rfl

@[simp] lemma applyLinear_invMass (bd : Body) (j : Vec2) :
    (bd.ApplyImpulseLinear j).invMass = bd.invMass := rfl

@[simp] lemma applyAngular_invMass (bd : Body) (j : ℚ) :
    (bd.ApplyImpulseAngular j).invMass = bd.invMass := rfl

@[simp] lemma applyLinear_invI (bd : Body) (j : Vec2) :
    (bd.ApplyImpulseLinear j).invI = bd.invI := rfl

@[simp] lemma applyAngular_invI (bd : Body) (j : ℚ) :
    (bd.ApplyImpulseAngular j).invI = bd.invI := rfl

@[simp] lemma applyLinear_friction (bd : Body) (j : Vec2) :
    (bd.ApplyImpulseLinear j).friction = bd.friction := rfl

@[simp] lemma applyAngular_friction (bd : Body) (j : ℚ) :
    (bd.ApplyImpulseAngular j).friction = bd.friction := rfl

@[simp] lemma applyLinear_restitution (bd : Body) (j : Vec2) :
    (bd.ApplyImpulseLinear j).restitution = bd.restitution := rfl

@[simp] lemma applyAngular_restitution (bd : Body) (j : ℚ) :
    (bd.ApplyImpulseAngular j).restitution = bd.restitution := rfl

@[simp] lemma applyLinear_angularVelocity (bd : Body) (j : Vec2) :
    (bd.ApplyImpulseLinear j).angularVelocity = bd.angularVelocity := rfl

@[simp] lemma applyAngular_velocity (bd : Body) (j : ℚ) :
    (bd.ApplyImpulseAngular j).velocity = bd.velocity := rfl

@[simp] lemma applyLinear_velocity (bd : Body) (j : Vec2) :
    (bd.ApplyImpulseLinear j).velocity = bd.velocity + j * bd.invMass := rfl

@[simp] lemma applyAngular_angularVelocity (bd : Body) (j : ℚ) :
    (bd.ApplyImpulseAngular j).angularVelocity = bd.angularVelocity + j * bd.invI := rfl

@[simp] lemma localToWorld_apply (bd : Body) (p : Vec2) :
    bd.LocalSpaceToWorldSpace p =
      ⟨bd.rotC * p.x - bd.rotS * p.y + bd.position.x,
       bd.rotS * p.x + bd.rotC * p.y + bd.position.y⟩ := rfl

end Body

/-- `VecN n`: the engine's `VecN`, an `n`-component rational vector. -/
abbrev VecN (n : ℕ) := Fin n → ℚ

/-- `MatMN m n`: the engine's `MatMN`, an `m × n` rational matrix. -/
abbrev MatMN (m n : ℕ) := Matrix (Fin m) (Fin n) ℚ

/-- `Constraint::GetVelocities` (Constraint.cpp lines 4–14): the 6-component
velocity vector `[a.vx, a.vy, a.ω, b.vx, b.vy, b.ω]`. -/
def GetVelocities (a b : Body) : VecN 6 :=
  ![a.velocity.x, a.velocity.y, a.angularVelocity,
    b.velocity.x, b.velocity.y, b.angularVelocity]

/-- `Constraint::GetInvM` (Constraint.cpp lines 16–26): the 6×6 diagonal
inverse-mass/inertia matrix. -/
def GetInvM (a b : Body) : MatMN 6 6 :=
  Matrix.diagonal ![a.invMass, a.invMass, a.invI, b.invMass, b.invMass, b.invI]

/-- The shared apply-to-both-bodies pattern (Constraint.cpp lines 68–72,
100–104, 162–166, 213–217): split a 6-component impulse vector into linear and
angular parts for each body and apply them. -/
def applySixImpulses (a b : Body) (impulses : VecN 6) : Body × Body :=
  ((a.ApplyImpulseLinear ⟨impulses 0, impulses 1⟩).ApplyImpulseAngular (impulses 2),
   (b.ApplyImpulseLinear ⟨impulses 3, impulses 4⟩).ApplyImpulseAngular (impulses 5))

/-- `std::clamp(v, lo, hi)`: `lo` if `v < lo`, else `hi` if `hi < v`, else `v`. -/
def stdClamp (v lo hi : ℚ) : ℚ := if v < lo then lo else if hi < v then hi else v

/-- State of a `JointConstraint` (Constraint.h/Constraint.cpp): the two bodies
(the C++ holds pointers; here the referenced body states are carried by value,
so `PreSolve`/`Solve` return the updated constraint-plus-bodies state), the
per-body local anchor points, the 1×6 Jacobian, the 1-component accumulated
lambda and the scalar bias. -/
structure JointConstraint where
  a : Body
  b : Body
  aPoint : Vec2
  bPoint : Vec2
  jacobian : MatMN 1 6
  cachedLambda : VecN 1
  bias : ℚ

/-- State of a `PenetrationConstraint`: bodies, per-body local collision
points, the contact normal in A's local frame, the 2×6 Jacobian, the
2-component accumulated lambda, the bias and the per-step friction
coefficient. -/
structure PenetrationConstraint where
  a : Body
  b : Body
  aPoint : Vec2
  bPoint : Vec2
  normal : Vec2
  jacobian : MatMN 2 6
  cachedLambda : VecN 2
  bias : ℚ
  friction : ℚ

namespace JointConstraint

/-- The 1×6 Jacobian built by `JointConstraint::PreSolve` (Constraint.cpp
lines 40–62), factored out: `J1 = (pa−pb)·2` in columns 0–1, `J2 =
ra×(pa−pb)·2` in column 2, `J3 = (pb−pa)·2` in columns 3–4, `J4 =
rb×(pb−pa)·2` in column 5. -/
def buildJacobian (c : JointConstraint) : MatMN 1 6 :=
  let pa := c.a.LocalSpaceToWorldSpace c.aPoint
  let pb := c.b.LocalSpaceToWorldSpace c.bPoint
  let ra := pa - c.a.position
  let rb := pb - c.b.position
  Matrix.of ![![((pa - pb) * (2 : ℚ)).x, ((pa - pb) * (2 : ℚ)).y, ra.Cross (pa - pb) * (2 : ℚ),
               ((pb - pa) * (2 : ℚ)).x, ((pb - pa) * (2 : ℚ)).y, rb.Cross (pb - pa) * (2 : ℚ)]]

/-- `JointConstraint::PreSolve` (Constraint.cpp lines 40–79): rebuild the
Jacobian, warm-start by applying `Jᵗ·cachedLambda` to both bodies, and compute
the Baumgarte bias `(β/dt)·max(0, |pb−pa|² − 0.01)` with `β = 0.1`. -/
def PreSolve (c : JointConstraint) (dt : ℚ) : JointConstraint :=
  let pa := c.a.LocalSpaceToWorldSpace c.aPoint
  let pb := c.b.LocalSpaceToWorldSpace c.bPoint
  let J := c.buildJacobian
  let impulses := J.transpose.mulVec c.cachedLambda
  let ab := applySixImpulses c.a c.b impulses
  let C := max 0 ((pb - pa).Dot (pb - pa) - 0.01)
  { c with a := ab.1, b := ab.2, jacobian := J, bias := (0.1 / dt) * C }

/-- `JointConstraint::Solve` (Constraint.cpp lines 81–105): form `lhs =
J·invM·Jᵗ` and `rhs = −J·V` with the bias subtracted from `rhs[0]`, obtain
`λ` from the external linear solver, accumulate it into `cachedLambda`, and
apply the raw impulses `Jᵗ·λ` to both bodies. -/
def Solve (solver : MatMN 1 1 → VecN 1 → VecN 1) (c : JointConstraint) :
    JointConstraint :=
  let V := GetVelocities c.a c.b
  let invM := GetInvM c.a c.b
  let J := c.jacobian
  let Jt := J.transpose
  let lhs := J * invM * Jt
  let rhs0 : VecN 1 := fun i => J.mulVec V i * (-1)
  let rhs := Function.update rhs0 0 (rhs0 0 - c.bias)
  let lam := solver lhs rhs
  let impulses := Jt.mulVec lam
  let ab := applySixImpulses c.a c.b impulses
  { c with a := ab.1, b := ab.2,
           cachedLambda := fun i => c.cachedLambda i + lam i }

end JointConstraint

namespace PenetrationConstraint

/-- The 2×6 Jacobian built by `PenetrationConstraint::PreSolve`
(Constraint.cpp lines 131–156): row 0 is the non-penetration row `[−n,
−(ra×n), n, rb×n]`; row 1 is the friction row built from the tangent `t =
n.Normal()` when `max(a.friction, b.friction) > 0`, and stays zero
otherwise. -/
def buildJacobian (c : PenetrationConstraint) : MatMN 2 6 :=
  let pa := c.a.LocalSpaceToWorldSpace c.aPoint
  let pb := c.b.LocalSpaceToWorldSpace c.bPoint
  let n := c.a.LocalSpaceToWorldSpace c.normal
  let ra := pa - c.a.position
  let rb := pb - c.b.position
  let friction := max c.a.friction c.b.friction
  Matrix.of ![![(-n).x, (-n).y, -(ra.Cross n), n.x, n.y, rb.Cross n],
              if 0 < friction then
                let t := n.Normal
                ![-t.x, -t.y, -(ra.Cross t), t.x, t.y, rb.Cross t]
              else fun _ => 0]

/-- `PenetrationConstraint::PreSolve` (Constraint.cpp lines 122–183): rebuild
the 2×6 Jacobian, store `friction = max(a.friction, b.friction)`, warm-start
by applying `Jᵗ·cachedLambda`, then compute the bias `(0.2/dt)·min(0,
(pb−pa)·(−n) + 0.01) + e·((va−vb)·n)` with `e = min` of the restitutions and
`va`, `vb` the contact-point velocities read from the bodies after the
warm-start impulses were applied (as the source does). -/
def PreSolve (c : PenetrationConstraint) (dt : ℚ) : PenetrationConstraint :=
  let pa := c.a.LocalSpaceToWorldSpace c.aPoint
  let pb := c.b.LocalSpaceToWorldSpace c.bPoint
  let n := c.a.LocalSpaceToWorldSpace c.normal
  let ra := pa - c.a.position
  let rb := pb - c.b.position
  let friction := max c.a.friction c.b.friction
  let J := c.buildJacobian
  let impulses := J.transpose.mulVec c.cachedLambda
  let ab := applySixImpulses c.a c.b impulses
  let C := min 0 ((pb - pa).Dot (-n) + 0.01)
  let va := ab.1.velocity +
    Vec2.mk (-ab.1.angularVelocity * ra.y) (ab.1.angularVelocity * ra.x)
  let vb := ab.2.velocity +
    Vec2.mk (-ab.2.angularVelocity * rb.y) (ab.2.angularVelocity * rb.x)
  let vrelDotNormal := (va - vb).Dot n
  let e := min ab.1.restitution ab.2.restitution
  { c with a := ab.1, b := ab.2, jacobian := J, friction := friction,
           bias := (0.2 / dt) * C + e * vrelDotNormal }

/-- The accumulate-and-clamp sequence of `PenetrationConstraint::Solve`
(Constraint.cpp lines 199–206), factored out: add the solved `lam` to the old
accumulated lambda, clamp the normal component (index 0) to be non-negative,
then — when `friction > 0` — clamp the tangential component (index 1) to
`[−maxFriction, maxFriction]` with `maxFriction` taken from the already
clamped normal component. -/
def clampAccumulated (friction : ℚ) (oldLambda lam : VecN 2) : VecN 2 :=
  let acc : VecN 2 := fun i => oldLambda i + lam i
  let acc0 : VecN 2 := Function.update acc 0 (if acc 0 < 0 then 0 else acc 0)
  if 0 < friction then
    let maxFriction := acc0 0 * friction
    Function.update acc0 1 (stdClamp (acc0 1) (-maxFriction) maxFriction)
  else acc0

/-- `PenetrationConstraint::Solve` (Constraint.cpp lines 185–218): same
`lhs`/`rhs` construction as the joint, solve for `λ`, accumulate and clamp via
`clampAccumulated` (lines 199–206), and apply `Jᵗ·(new − old)` — the clamped
delta, not the raw `λ` — to both bodies (lines 208–217). -/
def Solve (solver : MatMN 2 2 → VecN 2 → VecN 2) (c : PenetrationConstraint) :
    PenetrationConstraint :=
  let V := GetVelocities c.a c.b
  let invM := GetInvM c.a c.b
  let J := c.jacobian
  let Jt := J.transpose
  let lhs := J * invM * Jt
  let rhs0 : VecN 2 := fun i => J.mulVec V i * (-1)
  let rhs := Function.update rhs0 0 (rhs0 0 - c.bias)
  let lam := solver lhs rhs
  let oldLambda := c.cachedLambda
  let accClamped := clampAccumulated c.friction oldLambda lam
  let deltaLam : VecN 2 := fun i => accClamped i - oldLambda i
  let impulses := Jt.mulVec deltaLam
  let ab := applySixImpulses c.a c.b impulses
  { c with a := ab.1, b := ab.2, cachedLambda := accClamped }

end PenetrationConstraint

/-! ## Sample states used to instantiate theorems with hypotheses -/

/-- A unit-mass, unit-inertia, unit-friction body at the origin moving right. -/
def sampleBodyA : Body :=
  { position := ⟨0, 0⟩, rotC := 1, rotS := 0, velocity := ⟨1, 0⟩,
    angularVelocity := 0, invMass := 1, invI := 1, friction := 1, restitution := 0 }

/-- A resting unit-mass, unit-inertia, unit-friction body at `(1, 0)`. -/
def sampleBodyB : Body :=
  { position := ⟨1, 0⟩, rotC := 1, rotS := 0, velocity := ⟨0, 0⟩,
    angularVelocity := 0, invMass := 1, invI := 1, friction := 1, restitution := 0 }

/-- A frictionless variant of `sampleBodyA`. -/
def sampleBodyC : Body :=
  { position := ⟨0, 0⟩, rotC := 1, rotS := 0, velocity := ⟨1, 0⟩,
    angularVelocity := 0, invMass := 1, invI := 1, friction := 0, restitution := 0 }

/-- A frictionless variant of `sampleBodyB`. -/
def sampleBodyD : Body :=
  { position := ⟨1, 0⟩, rotC := 1, rotS := 0, velocity := ⟨0, 0⟩,
    angularVelocity := 0, invMass := 1, invI := 1, friction := 0, restitution := 0 }

/-- A contact between `sampleBodyA` and `sampleBodyB` along the x axis, with
friction coefficient 1 and a zero warm-start lambda. -/
def samplePen : PenetrationConstraint :=
  { a := sampleBodyA, b := sampleBodyB, aPoint := ⟨1, 0⟩, bPoint := ⟨0, 0⟩,
    normal := ⟨1, 0⟩,
    jacobian := Matrix.of ![![-1, 0, 0, 1, 0, 0], ![0, -1, 0, 0, 1, 0]],
    cachedLambda := ![0, 0], bias := 0, friction := 1 }

/-- The same contact between the frictionless bodies. -/
def samplePenNF : PenetrationConstraint :=
  { a := sampleBodyC, b := sampleBodyD, aPoint := ⟨1, 0⟩, bPoint := ⟨0, 0⟩,
    normal := ⟨1, 0⟩,
    jacobian := Matrix.of ![![-1, 0, 0, 1, 0, 0], ![0, 0, 0, 0, 0, 0]],
    cachedLambda := ![0, 0], bias := 0, friction := 0 }

/-- A joint pinning `sampleBodyA` to itself at the origin (zero separation). -/
def sampleJoint : JointConstraint :=
  { a := sampleBodyA, b := sampleBodyA, aPoint := ⟨0, 0⟩, bPoint := ⟨0, 0⟩,
    jacobian := Matrix.of ![![0, 0, 0, 0, 0, 0]],
    cachedLambda := ![0], bias := 0 }

/-- A concrete stand-in for the external iterative linear solver on 2×2
systems, used only to instantiate solver-quantified theorems. -/
def sampleSolver2 : MatMN 2 2 → VecN 2 → VecN 2 := fun _ _ => ![1, 5]

/-! ## Helper lemmas -/

lemma Vec2.add_sub_cancel (v m : Vec2) : v + m - v = m := by
  cases v with
  | mk a b =>
    cases m with
    | mk p q =>
      show Vec2.mk (a + p - a) (b + q - b) = Vec2.mk p q
      rw [add_sub_cancel_left, add_sub_cancel_left]

namespace PenetrationConstraint

lemma clampAccumulated_apply_zero (f : ℚ) (old lam : VecN 2) :
    clampAccumulated f old lam 0 =
      if old 0 + lam 0 < 0 then 0 else old 0 + lam 0 := by
  unfold clampAccumulated
  split_ifs with hf <;>
    simp [Function.update_noteq, Function.update_same]

lemma clampAccumulated_zero_nonneg (f : ℚ) (old lam : VecN 2) :
    0 ≤ clampAccumulated f old lam 0 := by
  rw [clampAccumulated_apply_zero]
  split_ifs with h
  · exact le_refl 0
  · linarith

lemma stdClamp_abs_le (v m : ℚ) (hm : 0 ≤ m) : |stdClamp v (-m) m| ≤ m := by
  unfold stdClamp
  split_ifs with h1 h2
  · rw [abs_neg, abs_of_nonneg hm]
  · rw [abs_of_nonneg hm]
  · rw [abs_le]
    constructor <;> linarith

lemma clampAccumulated_apply_one (f : ℚ) (old lam : VecN 2) (hf : 0 < f) :
    clampAccumulated f old lam 1 =
      stdClamp (old 1 + lam 1) (-(clampAccumulated f old lam 0 * f))
        (clampAccumulated f old lam 0 * f) := by
  rw [clampAccumulated_apply_zero]
  unfold clampAccumulated
  rw [if_pos hf]
  simp [Function.update_noteq, Function.update_same]

lemma clampAccumulated_cone (f : ℚ) (old lam : VecN 2) (hf : 0 < f) :
    |clampAccumulated f old lam 1| ≤ clampAccumulated f old lam 0 * f := by
  rw [clampAccumulated_apply_one f old lam hf]
  exact stdClamp_abs_le _ _
    (mul_nonneg (clampAccumulated_zero_nonneg f old lam) (le_of_lt hf))

lemma penPreSolve_buildJacobian (c : PenetrationConstraint) (dt : ℚ) :
    (c.PreSolve dt).buildJacobian = c.buildJacobian := rfl

lemma penPreSolve_cachedLambda (c : PenetrationConstraint) (dt : ℚ) :
    (c.PreSolve dt).cachedLambda = c.cachedLambda := rfl

lemma penPreSolve_a_invMass (c : PenetrationConstraint) (dt : ℚ) :
    (c.PreSolve dt).a.invMass = c.a.invMass := rfl

lemma penPreSolve_b_invMass (c : PenetrationConstraint) (dt : ℚ) :
    (c.PreSolve dt).b.invMass = c.b.invMass := rfl

lemma penPreSolve_a_invI (c : PenetrationConstraint) (dt : ℚ) :
    (c.PreSolve dt).a.invI = c.a.invI := rfl

lemma penPreSolve_b_invI (c : PenetrationConstraint) (dt : ℚ) :
    (c.PreSolve dt).b.invI = c.b.invI := rfl

lemma penPreSolve_a_velocity (c : PenetrationConstraint) (dt : ℚ) :
    (c.PreSolve dt).a.velocity = c.a.velocity +
      Vec2.mk (c.buildJacobian.transpose.mulVec c.cachedLambda 0)
        (c.buildJacobian.transpose.mulVec c.cachedLambda 1) * c.a.invMass := rfl

lemma penPreSolve_b_velocity (c : PenetrationConstraint) (dt : ℚ) :
    (c.PreSolve dt).b.velocity = c.b.velocity +
      Vec2.mk (c.buildJacobian.transpose.mulVec c.cachedLambda 3)
        (c.buildJacobian.transpose.mulVec c.cachedLambda 4) * c.b.invMass := rfl

lemma penPreSolve_a_angular (c : PenetrationConstraint) (dt : ℚ) :
    (c.PreSolve dt).a.angularVelocity = c.a.angularVelocity +
      c.buildJacobian.transpose.mulVec c.cachedLambda 2 * c.a.invI := rfl

lemma penPreSolve_b_angular (c : PenetrationConstraint) (dt : ℚ) :
    (c.PreSolve dt).b.angularVelocity = c.b.angularVelocity +
      c.buildJacobian.transpose.mulVec c.cachedLambda 5 * c.b.invI := rfl

end PenetrationConstraint

namespace JointConstraint

lemma preSolve_buildJacobian (c : JointConstraint) (dt : ℚ) :
    (c.PreSolve dt).buildJacobian = c.buildJacobian := rfl

lemma preSolve_cachedLambda (c : JointConstraint) (dt : ℚ) :
    (c.PreSolve dt).cachedLambda = c.cachedLambda := rfl

lemma preSolve_a_invMass (c : JointConstraint) (dt : ℚ) :
    (c.PreSolve dt).a.invMass = c.a.invMass := rfl

lemma preSolve_b_invMass (c : JointConstraint) (dt : ℚ) :
    (c.PreSolve dt).b.invMass = c.b.invMass := rfl

lemma preSolve_a_invI (c : JointConstraint) (dt : ℚ) :
    (c.PreSolve dt).a.invI = c.a.invI := rfl

lemma preSolve_b_invI (c : JointConstraint) (dt : ℚ) :
    (c.PreSolve dt).b.invI = c.b.invI := rfl

lemma preSolve_a_velocity (c : JointConstraint) (dt : ℚ) :
    (c.PreSolve dt).a.velocity = c.a.velocity +
      Vec2.mk (c.buildJacobian.transpose.mulVec c.cachedLambda 0)
        (c.buildJacobian.transpose.mulVec c.cachedLambda 1) * c.a.invMass := rfl

lemma preSolve_b_velocity (c : JointConstraint) (dt : ℚ) :
    (c.PreSolve dt).b.velocity = c.b.velocity +
      Vec2.mk (c.buildJacobian.transpose.mulVec c.cachedLambda 3)
        (c.buildJacobian.transpose.mulVec c.cachedLambda 4) * c.b.invMass := rfl

lemma preSolve_a_angular (c : JointConstraint) (dt : ℚ) :
    (c.PreSolve dt).a.angularVelocity = c.a.angularVelocity +
      c.buildJacobian.transpose.mulVec c.cachedLambda 2 * c.a.invI := rfl

lemma preSolve_b_angular (c : JointConstraint) (dt : ℚ) :
    (c.PreSolve dt).b.angularVelocity = c.b.angularVelocity +
      c.buildJacobian.transpose.mulVec c.cachedLambda 5 * c.b.invI := rfl

lemma preSolve_bias_eq (c : JointConstraint) (dt : ℚ) :
    (c.PreSolve dt).bias =
      (0.1 / dt) * max 0
        ((((c.PreSolve dt).b.LocalSpaceToWorldSpace (c.PreSolve dt).bPoint) -
          ((c.PreSolve dt).a.LocalSpaceToWorldSpace (c.PreSolve dt).aPoint)).Dot
         (((c.PreSolve dt).b.LocalSpaceToWorldSpace (c.PreSolve dt).bPoint) -
          ((c.PreSolve dt).a.LocalSpaceToWorldSpace (c.PreSolve dt).aPoint)) - 0.01) := by
  simp [JointConstraint.PreSolve, applySixImpulses, Vec2.Dot]

end JointConstraint

/-! ## Claim theorems -/

/-- C1: for every `PenetrationConstraint`, after every call to `Solve()` the
accumulated normal impulse `cachedLambda[0]` is non-negative, regardless of
the bodies' state, the Jacobian contents, or the value returned by the linear
solver (which is universally quantified here as `solver`). -/
theorem penetration_solve_cachedLambda_zero_nonneg
    (solver : MatMN 2 2 → VecN 2 → VecN 2) (c : PenetrationConstraint) :
    0 ≤ (PenetrationConstraint.Solve solver c).cachedLambda 0 :=
  PenetrationConstraint.clampAccumulated_zero_nonneg _ _ _

/-- C2: for every `PenetrationConstraint` whose friction coefficient is
strictly positive, after every call to `Solve()` the tangential accumulated
impulse satisfies `|cachedLambda[1]| ≤ cachedLambda[0] · frictionCoefficient`,
where the bound uses the current (post-clamp) normal impulse
`cachedLambda[0]`. -/
theorem penetration_solve_friction_cone
    (solver : MatMN 2 2 → VecN 2 → VecN 2) (c : PenetrationConstraint)
    (hf : 0 < c.friction) :
    |(PenetrationConstraint.Solve solver c).cachedLambda 1| ≤
      (PenetrationConstraint.Solve solver c).cachedLambda 0 * c.friction :=
  PenetrationConstraint.clampAccumulated_cone _ _ _ hf

/-- C2 witness: the friction-cone bound instantiated at `samplePen` (friction
coefficient 1) and the concrete solver `sampleSolver2`. -/
theorem penetration_solve_friction_cone_witness :
    0 < samplePen.friction ∧
    |(PenetrationConstraint.Solve sampleSolver2 samplePen).cachedLambda 1| ≤
      (PenetrationConstraint.Solve sampleSolver2 samplePen).cachedLambda 0 *
        samplePen.friction :=
  ⟨by norm_num [samplePen],
   penetration_solve_friction_cone sampleSolver2 samplePen (by norm_num [samplePen])⟩

/-- C3: in `PenetrationConstraint::Solve()`, the impulse applied to the two
bodies equals `Jᵗ · (cachedLambda_new − cachedLambda_old)` — the difference
between the accumulated impulse after clamping and the accumulated impulse
before this iteration — not `Jᵗ` times the raw lambda returned by the linear
solver: the velocity updates below are expressed solely through that delta. -/
theorem penetration_solve_applies_clamped_delta
    (solver : MatMN 2 2 → VecN 2 → VecN 2) (c : PenetrationConstraint) :
    let cc := PenetrationConstraint.Solve solver c
    let delta : VecN 2 := fun i => cc.cachedLambda i - c.cachedLambda i
    let imp := c.jacobian.transpose.mulVec delta
    cc.a.velocity = c.a.velocity + Vec2.mk (imp 0) (imp 1) * c.a.invMass ∧
    cc.a.angularVelocity = c.a.angularVelocity + imp 2 * c.a.invI ∧
    cc.b.velocity = c.b.velocity + Vec2.mk (imp 3) (imp 4) * c.b.invMass ∧
    cc.b.angularVelocity = c.b.angularVelocity + imp 5 * c.b.invI :=
  ⟨rfl, rfl, rfl, rfl⟩

/-- C4: after `JointConstraint::PreSolve(dt)`, the 1×6 Jacobian row equals
`[2(pa−pb).x, 2(pa−pb).y, 2(ra × (pa−pb)), 2(pb−pa).x, 2(pb−pa).y,
2(rb × (pb−pa))]` where `pa`, `pb` are the stored local anchor points
transformed to world space and `ra = pa − A.position`, `rb = pb −
B.position`. -/
theorem joint_presolve_jacobian_formula (c : JointConstraint) (dt : ℚ) :
    let pa := c.a.LocalSpaceToWorldSpace c.aPoint
    let pb := c.b.LocalSpaceToWorldSpace c.bPoint
    let ra := pa - c.a.position
    let rb := pb - c.b.position
    (c.PreSolve dt).jacobian =
      Matrix.of ![![2 * (pa - pb).x, 2 * (pa - pb).y, 2 * ra.Cross (pa - pb),
                   2 * (pb - pa).x, 2 * (pb - pa).y, 2 * rb.Cross (pb - pa)]] := by
  show c.buildJacobian = _
  unfold JointConstraint.buildJacobian
  ext i j
  fin_cases i
  fin_cases j <;>
    simp <;> ring_nf

/-- C5: after `PenetrationConstraint::PreSolve(dt)`, the stored bias equals
`(0.2/dt) · min(0, (pb−pa)·(−n) + 0.01) + e · ((va−vb)·n)` with
`e = min(A.restitution, B.restitution)`, `va = A.velocity +
(−A.angularVelocity·ra.y, A.angularVelocity·ra.x)`, `vb` the analogous
expression for B (velocities read from the post-`PreSolve` bodies, to which
the warm-start impulses have been applied, exactly as the source reads them),
and `n` the world-space contact normal. -/
theorem penetration_presolve_bias_formula (c : PenetrationConstraint) (dt : ℚ) :
    let cc := c.PreSolve dt
    let pa := cc.a.LocalSpaceToWorldSpace cc.aPoint
    let pb := cc.b.LocalSpaceToWorldSpace cc.bPoint
    let n := cc.a.LocalSpaceToWorldSpace cc.normal
    let ra := pa - cc.a.position
    let rb := pb - cc.b.position
    let e := min cc.a.restitution cc.b.restitution
    let va := cc.a.velocity +
      Vec2.mk (-cc.a.angularVelocity * ra.y) (cc.a.angularVelocity * ra.x)
    let vb := cc.b.velocity +
      Vec2.mk (-cc.b.angularVelocity * rb.y) (cc.b.angularVelocity * rb.x)
    cc.bias = (0.2 / dt) * min 0 ((pb - pa).Dot (-n) + 0.01) +
      e * ((va - vb).Dot n) := by
  show (c.PreSolve dt).bias = _
  simp [PenetrationConstraint.PreSolve, applySixImpulses, Vec2.Dot]

/-- C6: after `JointConstraint::PreSolve(dt)`, the stored bias equals
`(0.1/dt) · max(0, |pb−pa|² − 0.01)` — Baumgarte stabilization on the squared
anchor distance with slop `0.01` and `β = 0.1`; in particular the bias is zero
whenever the squared anchor separation is at most `0.01`. -/
theorem joint_presolve_bias_formula (c : JointConstraint) (dt : ℚ) :
    let cc := c.PreSolve dt
    let pa := cc.a.LocalSpaceToWorldSpace cc.aPoint
    let pb := cc.b.LocalSpaceToWorldSpace cc.bPoint
    cc.bias = (0.1 / dt) * max 0 ((pb - pa).Dot (pb - pa) - 0.01) ∧
    ((pb - pa).Dot (pb - pa) ≤ 0.01 → cc.bias = 0) := by
  refine ⟨JointConstraint.preSolve_bias_eq c dt, fun h => ?_⟩
  rw [JointConstraint.preSolve_bias_eq c dt]
  rw [max_eq_left (by linarith), mul_zero]

/-- C6 witness: at `sampleJoint` (both anchors coincide in world space, so the
squared separation is `0 ≤ 0.01`) the bias after `PreSolve(1)` is zero. -/
theorem joint_presolve_bias_formula_witness :
    (((sampleJoint.PreSolve 1).b.LocalSpaceToWorldSpace (sampleJoint.PreSolve 1).bPoint -
      (sampleJoint.PreSolve 1).a.LocalSpaceToWorldSpace (sampleJoint.PreSolve 1).aPoint).Dot
     ((sampleJoint.PreSolve 1).b.LocalSpaceToWorldSpace (sampleJoint.PreSolve 1).bPoint -
      (sampleJoint.PreSolve 1).a.LocalSpaceToWorldSpace (sampleJoint.PreSolve 1).aPoint)
      ≤ 0.01) ∧
    (sampleJoint.PreSolve 1).bias = 0 := by
  have h : (((sampleJoint.PreSolve 1).b.LocalSpaceToWorldSpace (sampleJoint.PreSolve 1).bPoint -
      (sampleJoint.PreSolve 1).a.LocalSpaceToWorldSpace (sampleJoint.PreSolve 1).aPoint).Dot
     ((sampleJoint.PreSolve 1).b.LocalSpaceToWorldSpace (sampleJoint.PreSolve 1).bPoint -
      (sampleJoint.PreSolve 1).a.LocalSpaceToWorldSpace (sampleJoint.PreSolve 1).aPoint)
      ≤ 0.01) := by
    norm_num [JointConstraint.PreSolve, JointConstraint.buildJacobian, applySixImpulses,
      Body.ApplyImpulseLinear, Body.ApplyImpulseAngular, Body.LocalSpaceToWorldSpace,
      sampleJoint, sampleBodyA, Matrix.mulVec, Matrix.dotProduct, Fin.sum_univ_six,
      Vec2.Dot]
  exact ⟨h, (joint_presolve_bias_formula sampleJoint 1).2 h⟩

/-- C7: `JointConstraint::Solve()` builds `V` and `invM` from the current body
state, forms `lhs = J·invM·Jᵗ` and `rhs = −(J·V)` with the bias subtracted
from `rhs[0]`, hands `lhs·λ = rhs` to the iterative solver, adds `λ` into
`cachedLambda`, and applies the raw impulse `Jᵗ·λ` to both bodies with no
clamping of `λ` in either sign (the updates below use `λ` exactly as
returned). -/
theorem joint_solve_structure
    (solver : MatMN 1 1 → VecN 1 → VecN 1) (c : JointConstraint) :
    let V := GetVelocities c.a c.b
    let invM := GetInvM c.a c.b
    let J := c.jacobian
    let Jt := J.transpose
    let lhs := J * invM * Jt
    let rhs := Function.update (fun i => J.mulVec V i * (-1)) 0
      (J.mulVec V 0 * (-1) - c.bias)
    let lam := solver lhs rhs
    let imp := Jt.mulVec lam
    let cc := JointConstraint.Solve solver c
    cc.cachedLambda = (fun i => c.cachedLambda i + lam i) ∧
    cc.a.velocity = c.a.velocity + Vec2.mk (imp 0) (imp 1) * c.a.invMass ∧
    cc.a.angularVelocity = c.a.angularVelocity + imp 2 * c.a.invI ∧
    cc.b.velocity = c.b.velocity + Vec2.mk (imp 3) (imp 4) * c.b.invMass ∧
    cc.b.angularVelocity = c.b.angularVelocity + imp 5 * c.b.invI ∧
    cc.jacobian = c.jacobian ∧ cc.bias = c.bias :=
  ⟨rfl, rfl, rfl, rfl, rfl, rfl, rfl⟩

/-- C8: the per-step friction coefficient computed by
`PenetrationConstraint::PreSolve` equals `max(A.friction, B.friction)`; and
whenever that maximum is zero, row 1 of the Jacobian remains entirely zero
after `PreSolve`, so impulses computed through `Jᵗ` (by `PreSolve`'s
warm-start and every subsequent `Solve()`) are independent of the `lambda[1]`
entry. -/
theorem penetration_presolve_friction_coefficient
    (c : PenetrationConstraint) (dt : ℚ) :
    let cc := c.PreSolve dt
    cc.friction = max c.a.friction c.b.friction ∧
    (max c.a.friction c.b.friction = 0 →
      (∀ j, cc.jacobian 1 j = 0) ∧
      (∀ v w : VecN 2, v 0 = w 0 →
        cc.jacobian.transpose.mulVec v = cc.jacobian.transpose.mulVec w)) := by
  refine ⟨rfl, fun h0 => ⟨?_, ?_⟩⟩
  · intro j
    show c.buildJacobian 1 j = 0
    unfold PenetrationConstraint.buildJacobian
    rw [h0]
    simp
  · intro v w hvw
    have hrow : ∀ j, (c.PreSolve dt).jacobian 1 j = 0 := by
      intro j
      show c.buildJacobian 1 j = 0
      unfold PenetrationConstraint.buildJacobian
      rw [h0]
      simp
    funext j
    simp only [Matrix.mulVec, Matrix.dotProduct, Fin.sum_univ_two,
      Matrix.transpose_apply]
    rw [hrow j, hvw]
    ring

/-- C8 witness: at `samplePenNF` (both bodies frictionless) the combined
friction coefficient is 0 and the tangential Jacobian row stays zero, here
checked at column 3. -/
theorem penetration_presolve_friction_coefficient_witness :
    max samplePenNF.a.friction samplePenNF.b.friction = 0 ∧
    (samplePenNF.PreSolve 1).jacobian 1 3 = 0 := by
  have h0 : max samplePenNF.a.friction samplePenNF.b.friction = 0 := by
    norm_num [samplePenNF, sampleBodyC, sampleBodyD]
  exact ⟨h0, ((penetration_presolve_friction_coefficient samplePenNF 1).2 h0).1 3⟩

/-- C9: `PreSolve(dt)` is deterministic for either constraint type — equal
constraint-and-body states yield equal post-states — and the second of two
consecutive `PreSolve` calls (no intervening `Solve`) re-applies the same
unchanged `cachedLambda` against the updated velocities: `PreSolve` leaves
`cachedLambda` untouched, and the velocity change produced by the second call
equals the warm-start change produced by the first. -/
theorem presolve_deterministic_warm_start (dt : ℚ)
    (j₁ j₂ : JointConstraint) (p₁ p₂ : PenetrationConstraint) :
    (j₁ = j₂ → j₁.PreSolve dt = j₂.PreSolve dt) ∧
    (p₁ = p₂ → p₁.PreSolve dt = p₂.PreSolve dt) ∧
    (j₁.PreSolve dt).cachedLambda = j₁.cachedLambda ∧
    (p₁.PreSolve dt).cachedLambda = p₁.cachedLambda ∧
    (((j₁.PreSolve dt).PreSolve dt).a.velocity - (j₁.PreSolve dt).a.velocity =
      (j₁.PreSolve dt).a.velocity - j₁.a.velocity) ∧
    (((j₁.PreSolve dt).PreSolve dt).a.angularVelocity -
        (j₁.PreSolve dt).a.angularVelocity =
      (j₁.PreSolve dt).a.angularVelocity - j₁.a.angularVelocity) ∧
    (((j₁.PreSolve dt).PreSolve dt).b.velocity - (j₁.PreSolve dt).b.velocity =
      (j₁.PreSolve dt).b.velocity - j₁.b.velocity) ∧
    (((j₁.PreSolve dt).PreSolve dt).b.angularVelocity -
        (j₁.PreSolve dt).b.angularVelocity =
      (j₁.PreSolve dt).b.angularVelocity - j₁.b.angularVelocity) ∧
    (((p₁.PreSolve dt).PreSolve dt).a.velocity - (p₁.PreSolve dt).a.velocity =
      (p₁.PreSolve dt).a.velocity - p₁.a.velocity) ∧
    (((p₁.PreSolve dt).PreSolve dt).a.angularVelocity -
        (p₁.PreSolve dt).a.angularVelocity =
      (p₁.PreSolve dt).a.angularVelocity - p₁.a.angularVelocity) ∧
    (((p₁.PreSolve dt).PreSolve dt).b.velocity - (p₁.PreSolve dt).b.velocity =
      (p₁.PreSolve dt).b.velocity - p₁.b.velocity) ∧
    (((p₁.PreSolve dt).PreSolve dt).b.angularVelocity -
        (p₁.PreSolve dt).b.angularVelocity =
      (p₁.PreSolve dt).b.angularVelocity - p₁.b.angularVelocity) := by
  refine ⟨fun h => by rw [h], fun h => by rw [h], rfl, rfl,
    ?_, ?_, ?_, ?_, ?_, ?_, ?_, ?_⟩
  · rw [JointConstraint.preSolve_a_velocity (j₁.PreSolve dt) dt,
      JointConstraint.preSolve_a_velocity j₁ dt,
      JointConstraint.preSolve_buildJacobian, JointConstraint.preSolve_cachedLambda,
      JointConstraint.preSolve_a_invMass]
    rw [Vec2.add_sub_cancel, Vec2.add_sub_cancel]
  · rw [JointConstraint.preSolve_a_angular (j₁.PreSolve dt) dt,
      JointConstraint.preSolve_a_angular j₁ dt,
      JointConstraint.preSolve_buildJacobian, JointConstraint.preSolve_cachedLambda,
      JointConstraint.preSolve_a_invI]
    rw [add_sub_cancel_left, add_sub_cancel_left]
  · rw [JointConstraint.preSolve_b_velocity (j₁.PreSolve dt) dt,
      JointConstraint.preSolve_b_velocity j₁ dt,
      JointConstraint.preSolve_buildJacobian, JointConstraint.preSolve_cachedLambda,
      JointConstraint.preSolve_b_invMass]
    rw [Vec2.add_sub_cancel, Vec2.add_sub_cancel]
  · rw [JointConstraint.preSolve_b_angular (j₁.PreSolve dt) dt,
      JointConstraint.preSolve_b_angular j₁ dt,
      JointConstraint.preSolve_buildJacobian, JointConstraint.preSolve_cachedLambda,
      JointConstraint.preSolve_b_invI]
    rw [add_sub_cancel_left, add_sub_cancel_left]
  · rw [PenetrationConstraint.penPreSolve_a_velocity (p₁.PreSolve dt) dt,
      PenetrationConstraint.penPreSolve_a_velocity p₁ dt,
      PenetrationConstraint.penPreSolve_buildJacobian,
      PenetrationConstraint.penPreSolve_cachedLambda,
      PenetrationConstraint.penPreSolve_a_invMass]
    rw [Vec2.add_sub_cancel, Vec2.add_sub_cancel]
  · rw [PenetrationConstraint.penPreSolve_a_angular (p₁.PreSolve dt) dt,
      PenetrationConstraint.penPreSolve_a_angular p₁ dt,
      PenetrationConstraint.penPreSolve_buildJacobian,
      PenetrationConstraint.penPreSolve_cachedLambda,
      PenetrationConstraint.penPreSolve_a_invI]
    rw [add_sub_cancel_left, add_sub_cancel_left]
  · rw [PenetrationConstraint.penPreSolve_b_velocity (p₁.PreSolve dt) dt,
      PenetrationConstraint.penPreSolve_b_velocity p₁ dt,
      PenetrationConstraint.penPreSolve_buildJacobian,
      PenetrationConstraint.penPreSolve_cachedLambda,
      PenetrationConstraint.penPreSolve_b_invMass]
    rw [Vec2.add_sub_cancel, Vec2.add_sub_cancel]
  · rw [PenetrationConstraint.penPreSolve_b_angular (p₁.PreSolve dt) dt,
      PenetrationConstraint.penPreSolve_b_angular p₁ dt,
      PenetrationConstraint.penPreSolve_buildJacobian,
      PenetrationConstraint.penPreSolve_cachedLambda,
      PenetrationConstraint.penPreSolve_b_invI]
    rw [add_sub_cancel_left, add_sub_cancel_left]

/-- C9 witness: determinism instantiated at the concrete states `sampleJoint`
and `samplePen` with `dt = 1`, discharging the equal-states hypotheses by
`rfl`. -/
theorem presolve_deterministic_warm_start_witness :
    sampleJoint.PreSolve 1 = sampleJoint.PreSolve 1 ∧
    samplePen.PreSolve 1 = samplePen.PreSolve 1 :=
  ⟨(presolve_deterministic_warm_start 1 sampleJoint sampleJoint samplePen samplePen).1 rfl,
   (presolve_deterministic_warm_start 1 sampleJoint sampleJoint samplePen samplePen).2.1 rfl⟩

/-- Arithmetic core of C10: a value clamped to be non-negative and then scaled
by a positive factor yields ordered symmetric clamp bounds. -/
lemma clampedTimesPos_bounds (f x : ℚ) (hf : 0 < f) :
    0 ≤ (if x < 0 then 0 else x) * f ∧
    -((if x < 0 then 0 else x) * f) ≤ (if x < 0 then 0 else x) * f := by
  have hm : 0 ≤ (if x < 0 then 0 else x) * f := by
    apply mul_nonneg _ (le_of_lt hf)
    split_ifs with h
    · exact le_refl 0
    · linarith
  exact ⟨hm, neg_le_self hm⟩

/-- C10: in `PenetrationConstraint::Solve()`, the normal component
`cachedLambda[0]` is clamped to non-negative before `maxFriction =
cachedLambda[0] · friction` is computed, so when `friction > 0` the clamp
bounds satisfy `-maxFriction ≤ maxFriction` (the `std::clamp` precondition
`lo ≤ hi`); the post-`Solve` normal impulse times the friction coefficient is
exactly that `maxFriction`. -/
theorem penetration_solve_clamp_bounds_ordered
    (solver : MatMN 2 2 → VecN 2 → VecN 2) (c : PenetrationConstraint)
    (hf : 0 < c.friction) :
    let lam := solver
      (c.jacobian * GetInvM c.a c.b * c.jacobian.transpose)
      (Function.update (fun i => c.jacobian.mulVec (GetVelocities c.a c.b) i * (-1)) 0
        (c.jacobian.mulVec (GetVelocities c.a c.b) 0 * (-1) - c.bias))
    let maxFriction :=
      (if c.cachedLambda 0 + lam 0 < 0 then 0 else c.cachedLambda 0 + lam 0) *
        c.friction
    0 ≤ maxFriction ∧ -maxFriction ≤ maxFriction ∧
    (PenetrationConstraint.Solve solver c).cachedLambda 0 * c.friction =
      maxFriction := by
  refine ⟨(clampedTimesPos_bounds c.friction _ hf).1,
    (clampedTimesPos_bounds c.friction _ hf).2, ?_⟩
  exact congrArg (fun t => t * c.friction)
    (PenetrationConstraint.clampAccumulated_apply_zero c.friction c.cachedLambda _)

/-- C10 witness: the ordered-bounds conclusion instantiated at `samplePen`
(friction coefficient 1) and the concrete solver `sampleSolver2`. -/
theorem penetration_solve_clamp_bounds_ordered_witness :
    0 < samplePen.friction ∧
    0 ≤ (PenetrationConstraint.Solve sampleSolver2 samplePen).cachedLambda 0 *
      samplePen.friction :=
  ⟨by norm_num [samplePen],
   (penetration_solve_clamp_bounds_ordered sampleSolver2 samplePen
      (by norm_num [samplePen])).2.2 ▸
     (penetration_solve_clamp_bounds_ordered sampleSolver2 samplePen
        (by norm_num [samplePen])).1⟩
